import Mathlib

/-!
Shallow embedding of the feritscope radar client core (src/types.rs,
src/config.rs, src/state.rs, src/radar.rs, src/network.rs).

Conventions of the embedding:
* Rust `f64`/`f32` values are modelled as exact rationals (`ℚ`); the
  floating-point casts `as f32`/`as f64` are therefore identities and the
  spec's "within floating-point tolerance" becomes exact equality.
* `i64`/`u64`/`usize` become `Int`/`Nat`; Rust's `/` and `%` on `i64` are
  `Int.tdiv` and `Int.tmod` (truncated division, remainder with the sign
  of the dividend).
* Rust `&str` is modelled as `List Char` (a sequence of Unicode scalar
  values); byte indexing/slicing is modelled explicitly with UTF-8 byte
  widths, and a Rust panic (slicing off a character boundary) is `none`.
* `chrono::Utc::now().timestamp_millis()` is passed in as an explicit
  `now : Int` parameter.
* `HashMap` is modelled as an association list with unique keys; `serde`
  deserialisation of the websocket payload is modelled by an inductive of
  the possible well-formed payloads plus a `malformed` case.
-/

namespace Feritscope

/-- `Position` from src/types.rs: position in studs (-y is North, -x is West). -/
structure Position where
  x : ℚ
  y : ℚ
deriving DecidableEq

/-- `AircraftInfo` from src/types.rs. -/
structure AircraftInfo where
  heading : ℚ
  player_name : String
  altitude : ℚ
  aircraft_type : String
  position : Position
  speed : ℚ
  wind : String
  is_on_ground : Option Bool
  ground_speed : ℚ
  is_emergency_occuring : Bool
deriving DecidableEq

/-- `FlightPlan` from src/types.rs. -/
structure FlightPlan where
  roblox_name : String
  callsign : String
  real_callsign : String
  aircraft : String
  flight_rules : String
  departing : String
  arriving : String
  route : String
  flight_level : String
deriving DecidableEq

/-- `ControllerPosition` from src/types.rs. -/
structure ControllerPosition where
  holder : Option String
  held_since : Option Nat
  claimable : Bool
  airport : String
  position : String
  queue : List String
deriving DecidableEq

/-- `Atis` from src/types.rs. -/
structure Atis where
  airport : String
  letter : String
  content : String
  lines : List String
  editor : Option String
deriving DecidableEq

/-- `TrackedAircraft` from src/types.rs. -/
structure TrackedAircraft where
  callsign : String
  info : AircraftInfo
  flight_plan : Option FlightPlan
  history : List (ℚ × ℚ × Int)
  last_update : Int
  emergency_flash : Bool
deriving DecidableEq

/-- `TrackedAircraft::new` (src/types.rs); `now` stands for
`chrono::Utc::now().timestamp_millis()`. -/
def TrackedAircraft.new (callsign : String) (info : AircraftInfo) (now : Int) :
    TrackedAircraft :=
  { callsign := callsign
    info := info
    flight_plan := none
    history := []
    last_update := now
    emergency_flash := false }

/-- `TrackedAircraft::should_add_history` (src/types.rs).  The source compares
`(dx*dx + dy*dy).sqrt() > 100.0`; over the nonnegative reals this is
equivalent to `dx*dx + dy*dy > 100^2`, which is how the square root is
embedded here (exact over `ℚ`). -/
def TrackedAircraft.should_add_history (t : TrackedAircraft)
    (new_info : AircraftInfo) : Bool :=
  let dx := new_info.position.x - t.info.position.x
  let dy := new_info.position.y - t.info.position.y
  decide (dx * dx + dy * dy > 100 * 100)

/-- `TrackedAircraft::update` (src/types.rs): push the previously stored
position onto the history when the new sample moved far enough, trim with
`Vec::remove(0)` when over `max_history`, then overwrite `info` and
`last_update`. -/
def TrackedAircraft.update (t : TrackedAircraft) (info : AircraftInfo)
    (now : Int) (max_history : Nat) : TrackedAircraft :=
  let hist :=
    if t.should_add_history info then
      let pushed := t.history ++ [(t.info.position.x, t.info.position.y, t.last_update)]
      if pushed.length > max_history then pushed.drop 1 else pushed
    else t.history
  { t with info := info, history := hist, last_update := now }

/-- `DisplayConfig` from src/config.rs. -/
structure DisplayConfig where
  target_scale : ℚ
  target_stroke : ℚ
  font_size : ℚ
  history_length : Nat
  history_dot_size : ℚ
  vector_minutes : ℚ
  show_vectors : Bool
  show_history : Bool
  show_tags : Bool
deriving DecidableEq

/-- `ColorConfig` from src/config.rs. -/
structure ColorConfig where
  background : String
  target : String
  target_selected : String
  target_emergency : String
  tag_text : String
  history : String
  vector : String
  ground : String
deriving DecidableEq

/-- `DataTagConfig` from src/config.rs. -/
structure DataTagConfig where
  offset : ℚ × ℚ
  line_spacing : ℚ
  line1 : String
  line2 : String
  line3 : Option String
  line4 : Option String
deriving DecidableEq

/-- `PerformanceConfig` from src/config.rs. -/
structure PerformanceConfig where
  target_fps : Nat
  max_aircraft : Nat
  anti_aliasing : Bool
deriving DecidableEq

/-- `NetworkConfig` from src/config.rs. -/
structure NetworkConfig where
  websocket_url : String
  api_base_url : String
  reconnect_delay_secs : Nat
  enable_main_server : Bool
  enable_event_server : Bool
deriving DecidableEq

/-- `RadarConfig` from src/config.rs. -/
structure RadarConfig where
  display : DisplayConfig
  colors : ColorConfig
  data_tags : DataTagConfig
  performance : PerformanceConfig
  network : NetworkConfig
deriving DecidableEq

/-- `DisplayConfig::default` (src/config.rs default value functions). -/
def DisplayConfig.default : DisplayConfig :=
  { target_scale := 1
    target_stroke := 2
    font_size := 12
    history_length := 20
    history_dot_size := 2
    vector_minutes := 3
    show_vectors := true
    show_history := true
    show_tags := true }

/-- `ColorConfig::default` (src/config.rs). -/
def ColorConfig.default : ColorConfig :=
  { background := "#0A0E1A"
    target := "#00FF00"
    target_selected := "#FFD700"
    target_emergency := "#FF0000"
    tag_text := "#00FF00"
    history := "#00AA00"
    vector := "#0088FF"
    ground := "#888888" }

/-- `DataTagConfig::default` (src/config.rs). -/
def DataTagConfig.default : DataTagConfig :=
  { offset := (15, -10)
    line_spacing := 14
    line1 := "{callsign}"
    line2 := "F{altitude:03} {gs:03}KT"
    line3 := none
    line4 := none }

/-- `PerformanceConfig::default` (src/config.rs). -/
def PerformanceConfig.default : PerformanceConfig :=
  { target_fps := 60, max_aircraft := 500, anti_aliasing := true }

/-- `NetworkConfig::default` (src/config.rs): the event server is disabled by
default. -/
def NetworkConfig.default : NetworkConfig :=
  { websocket_url := "wss://24data.ptfs.app/wss"
    api_base_url := "https://24data.ptfs.app"
    reconnect_delay_secs := 5
    enable_main_server := true
    enable_event_server := false }

/-- `RadarConfig::default` (src/config.rs). -/
def RadarConfig.default : RadarConfig :=
  { display := DisplayConfig.default
    colors := ColorConfig.default
    data_tags := DataTagConfig.default
    performance := PerformanceConfig.default
    network := NetworkConfig.default }

/-- `egui::Color32` as used by src/radar.rs: an (r, g, b, a) quadruple of
bytes. -/
structure Color32 where
  r : Nat
  g : Nat
  b : Nat
  a : Nat
deriving DecidableEq

/-- `Color32::from_rgb`: fully opaque. -/
def Color32.from_rgb (r g b : Nat) : Color32 := ⟨r, g, b, 255⟩

/-- `Color32::TRANSPARENT`. -/
def Color32.TRANSPARENT : Color32 := ⟨0, 0, 0, 0⟩

/-- `Color32::WHITE`. -/
def Color32.WHITE : Color32 := ⟨255, 255, 255, 255⟩

/-- Number of bytes of the UTF-8 encoding of one Unicode scalar value; this is
what Rust's byte-based `str` indexing counts. -/
def charUtf8Len (c : Char) : Nat :=
  if c.toNat < 0x80 then 1
  else if c.toNat < 0x800 then 2
  else if c.toNat < 0x10000 then 3
  else 4

/-- UTF-8 byte length of a Rust `str`, i.e. `str::len`. -/
def strByteLen (s : List Char) : Nat :=
  (s.map charUtf8Len).sum

/-- Drop the first `n` bytes of a string; `none` when `n` is not a character
boundary (where Rust slicing would panic) or past the end. -/
def dropBytes : List Char → Nat → Option (List Char)
  | s, 0 => some s
  | [], _ + 1 => none
  | c :: rest, n + 1 =>
    if charUtf8Len c ≤ n + 1 then dropBytes rest (n + 1 - charUtf8Len c) else none

/-- Take the first `n` bytes of a string; `none` when `n` is not a character
boundary or past the end. -/
def takeBytes : List Char → Nat → Option (List Char)
  | _, 0 => some []
  | [], _ + 1 => none
  | c :: rest, n + 1 =>
    if charUtf8Len c ≤ n + 1 then
      (takeBytes rest (n + 1 - charUtf8Len c)).map (fun l => c :: l)
    else none

/-- Rust byte slicing `&s[a..b]` (with `a ≤ b`); `none` models the panic on a
non-boundary index or out-of-range slice. -/
def sliceBytes (s : List Char) (a b : Nat) : Option (List Char) :=
  (dropBytes s a).bind (fun s2 => takeBytes s2 (b - a))

/-- `char::to_digit(16)`. -/
def hexDigitVal (c : Char) : Option Nat :=
  if '0' ≤ c ∧ c ≤ '9' then some (c.toNat - 48)
  else if 'a' ≤ c ∧ c ≤ 'f' then some (c.toNat - 87)
  else if 'A' ≤ c ∧ c ≤ 'F' then some (c.toNat - 55)
  else none

/-- Digit-accumulation loop of `u8::from_str_radix(s, 16)`: fails on a
non-digit or when the accumulated value leaves the `u8` range. -/
def hexValU8 : List Char → Nat → Option Nat
  | [], acc => some acc
  | c :: rest, acc =>
    match hexDigitVal c with
    | none => none
    | some d =>
      let acc2 := acc * 16 + d
      if acc2 > 255 then none else hexValU8 rest acc2

/-- `u8::from_str_radix(s, 16)` (src/radar.rs uses it per colour component):
an optional leading `+` is accepted, the empty string and a bare sign are
errors, and for an unsigned target a leading `-` is just a non-digit. -/
def fromStrRadix16u8 (s : List Char) : Option Nat :=
  match s with
  | [] => none
  | '+' :: rest =>
    match rest with
    | [] => none
    | _ => hexValU8 rest 0
  | _ => hexValU8 s 0

/-- `parse_color` from src/radar.rs on the character-sequence model of `&str`.
`trim_start_matches('#')` removes every leading `'#'`; the length test is on
UTF-8 bytes; the three two-byte slices panic (`none`) off character
boundaries; a failed component parse falls back to 0 via `unwrap_or(0)`. -/
def parseColorChars (s : List Char) : Option Color32 :=
  let hex := s.dropWhile (fun c => c = '#')
  if strByteLen hex = 6 then
    match sliceBytes hex 0 2, sliceBytes hex 2 4, sliceBytes hex 4 6 with
    | some rs, some gs, some bs =>
      some (Color32.from_rgb ((fromStrRadix16u8 rs).getD 0)
        ((fromStrRadix16u8 gs).getD 0) ((fromStrRadix16u8 bs).getD 0))
    | _, _, _ => none
  else
    some Color32.WHITE

/-- `parse_color` (src/radar.rs) on Lean `String`s. -/
def parse_color (s : String) : Option Color32 :=
  parseColorChars s.data

/-- `Projection` from src/radar.rs.  `screen_width`/`screen_height` are `f32`
in the source; all numerics are embedded as `ℚ`. -/
structure Projection where
  center : ℚ × ℚ
  studs_per_pixel : ℚ
  screen_width : ℚ
  screen_height : ℚ
deriving DecidableEq

/-- `Projection::new` (src/radar.rs). -/
def Projection.new (screen_width screen_height : ℚ) : Projection :=
  { center := (0, 0)
    studs_per_pixel := 100
    screen_width := screen_width
    screen_height := screen_height }

/-- `Projection::studs_to_screen` (src/radar.rs). -/
def Projection.studs_to_screen (p : Projection) (studs_x studs_y : ℚ) : ℚ × ℚ :=
  let dx := studs_x - p.center.1
  let dy := studs_y - p.center.2
  (p.screen_width / 2 + dx / p.studs_per_pixel,
   p.screen_height / 2 + dy / p.studs_per_pixel)

/-- `Projection::screen_to_studs` (src/radar.rs). -/
def Projection.screen_to_studs (p : Projection) (screen_pos : ℚ × ℚ) : ℚ × ℚ :=
  let dx := (screen_pos.1 - p.screen_width / 2) * p.studs_per_pixel
  let dy := (screen_pos.2 - p.screen_height / 2) * p.studs_per_pixel
  (p.center.1 + dx, p.center.2 + dy)

/-- `Projection::pan` (src/radar.rs): the center moves opposite to the screen
delta. -/
def Projection.pan (p : Projection) (delta_screen : ℚ × ℚ) : Projection :=
  let delta_studs_x := delta_screen.1 * p.studs_per_pixel
  let delta_studs_y := delta_screen.2 * p.studs_per_pixel
  { p with center := (p.center.1 - delta_studs_x, p.center.2 - delta_studs_y) }

/-- `f64::clamp(lo, hi)`. -/
def clampQ (x lo hi : ℚ) : ℚ :=
  if x < lo then lo else if x > hi then hi else x

/-- `Projection::zoom` (src/radar.rs): scale the zoom by 0.9 (in) or 1.1
(out), optionally re-anchor on the mouse position, then clamp the scale to
[1, 1000]. -/
def Projection.zoom (p : Projection) (delta : ℚ) (mouse_pos : Option (ℚ × ℚ)) :
    Projection :=
  let zoom_factor : ℚ := if delta > 0 then 0.9 else 1.1
  let p1 :=
    match mouse_pos with
    | some mouse =>
      let studs_before := p.screen_to_studs mouse
      let p2 := { p with studs_per_pixel := p.studs_per_pixel * zoom_factor }
      let studs_after := p2.screen_to_studs mouse
      { p2 with
        center := (p2.center.1 + (studs_before.1 - studs_after.1),
                   p2.center.2 + (studs_before.2 - studs_after.2)) }
    | none => { p with studs_per_pixel := p.studs_per_pixel * zoom_factor }
  { p1 with studs_per_pixel := clampQ p1.studs_per_pixel 1 1000 }

/-- The colour chosen for an aircraft target by `RadarRenderer::render_target`
(src/radar.rs): emergency flash (animation clock `/ 500 % 2`, `i64`
truncated division) > selected > on-ground > normal.  `none` models a panic
inside `parse_color`. -/
def targetColor (selected_aircraft : Option String) (tracked : TrackedAircraft)
    (colors : ColorConfig) (time_millis : Int) : Option Color32 :=
  if tracked.info.is_emergency_occuring then
    if (time_millis.tdiv 500).tmod 2 = 0 then parse_color colors.target_emergency
    else some Color32.TRANSPARENT
  else if selected_aircraft = some tracked.callsign then
    parse_color colors.target_selected
  else if tracked.info.is_on_ground.getD false then
    parse_color colors.ground
  else
    parse_color colors.target

/-- The predicted world-space endpoint computed by
`RadarRenderer::render_vector` (src/radar.rs): fly the current heading at the
current ground speed for `vector_minutes` minutes at 0.5442765 studs per
knot-second.  Real-valued because of the trigonometry. -/
noncomputable def render_vector_endpoint (tracked : TrackedAircraft)
    (display : DisplayConfig) : ℝ × ℝ :=
  let studs_per_knot_per_sec : ℝ := 0.5442765
  let seconds_ahead : ℝ := (display.vector_minutes : ℝ) * 60
  let gs_knots : ℝ := (tracked.info.ground_speed : ℝ)
  let heading_rad : ℝ := ((tracked.info.heading : ℝ) - 90) * Real.pi / 180
  let distance_studs : ℝ := gs_knots * studs_per_knot_per_sec * seconds_ahead
  ((tracked.info.position.x : ℝ) + distance_studs * Real.cos heading_rad,
   (tracked.info.position.y : ℝ) + distance_studs * Real.sin heading_rad)

/-- `ConnectionStatus` from src/state.rs. -/
structure ConnectionStatus where
  websocket_connected : Bool
  last_data_received : Option Int
  aircraft_count : Nat
  event_aircraft_count : Nat
deriving DecidableEq

/-- `ConnectionStatus::default` (src/state.rs). -/
def ConnectionStatus.default : ConnectionStatus :=
  { websocket_connected := false
    last_data_received := none
    aircraft_count := 0
    event_aircraft_count := 0 }

/-- `RadarState` from src/state.rs.  The `HashMap`s are association lists
with unique keys; the `RwLock`s disappear in this sequential model. -/
structure RadarState where
  aircraft : List (String × TrackedAircraft)
  controllers : List ControllerPosition
  atis : List (String × Atis)
  config : RadarConfig
  connection_status : ConnectionStatus
deriving DecidableEq

/-- `RadarState::new` (src/state.rs). -/
def RadarState.new : RadarState :=
  { aircraft := []
    controllers := []
    atis := []
    config := RadarConfig.default
    connection_status := ConnectionStatus.default }

/-- `HashMap::get` on the association-list model. -/
def lookupA {α : Type} : List (String × α) → String → Option α
  | [], _ => none
  | (k, v) :: rest, key => if k = key then some v else lookupA rest key

/-- One step of the batch-upsert loop in `RadarState::update_aircraft_batch`
(src/state.rs): `entry(callsign).and_modify(update).or_insert_with(new)`. -/
def upsertAircraft (l : List (String × TrackedAircraft)) (callsign : String)
    (info : AircraftInfo) (now : Int) (max_history : Nat) :
    List (String × TrackedAircraft) :=
  match l with
  | [] => [(callsign, TrackedAircraft.new callsign info now)]
  | (k, t) :: rest =>
    if k = callsign then (k, t.update info now max_history) :: rest
    else (k, t) :: upsertAircraft rest callsign info now max_history

/-- `HashMap::insert` (replace or append) on the association-list model. -/
def insertA {α : Type} : List (String × α) → String → α → List (String × α)
  | [], key, v => [(key, v)]
  | (k, w) :: rest, key, v =>
    if k = key then (k, v) :: rest else (k, w) :: insertA rest key v

/-- `RadarState::update_aircraft_batch` (src/state.rs): upsert every entry of
the batch with the configured history bound, then refresh the aircraft count
and last-data timestamp in the connection status. -/
def RadarState.update_aircraft_batch (s : RadarState)
    (aircraft_map : List (String × AircraftInfo)) (now : Int) : RadarState :=
  let max_history := s.config.display.history_length
  let aircraft := aircraft_map.foldl
    (fun acc p => upsertAircraft acc p.1 p.2 now max_history) s.aircraft
  { s with
    aircraft := aircraft
    connection_status := { s.connection_status with
      aircraft_count := aircraft.length
      last_data_received := some now } }

/-- `RadarState::clear_stale_aircraft` (src/state.rs). -/
def RadarState.clear_stale_aircraft (s : RadarState) (max_age_secs : Int)
    (now : Int) : RadarState :=
  { s with aircraft :=
      s.aircraft.filter (fun p => now - p.2.last_update < max_age_secs * 1000) }

/-- The `get_mut` + assignment in `RadarState::update_flight_plan`: modify the
matching entry's flight plan, or do nothing when the callsign is absent. -/
def setFlightPlan : List (String × TrackedAircraft) → FlightPlan →
    List (String × TrackedAircraft)
  | [], _ => []
  | (k, t) :: rest, fp =>
    if k = fp.callsign then (k, { t with flight_plan := some fp }) :: rest
    else (k, t) :: setFlightPlan rest fp

/-- `RadarState::update_flight_plan` (src/state.rs). -/
def RadarState.update_flight_plan (s : RadarState) (flight_plan : FlightPlan) :
    RadarState :=
  { s with aircraft := setFlightPlan s.aircraft flight_plan }

/-- `RadarState::update_controllers` (src/state.rs): full replace. -/
def RadarState.update_controllers (s : RadarState)
    (positions : List ControllerPosition) : RadarState :=
  { s with controllers := positions }

/-- `RadarState::update_atis` (src/state.rs): keyed by airport,
last-write-wins. -/
def RadarState.update_atis (s : RadarState) (atis : Atis) : RadarState :=
  { s with atis := insertA s.atis atis.airport atis }

/-- The possible shapes of the `d` field of a websocket envelope, as seen by
the typed `serde_json::from_value` calls in
`NetworkManager::handle_message` (src/network.rs): a value either matches
one of the four payload schemas or fails every deserialisation. -/
inductive WsData where
  | acftData (m : List (String × AircraftInfo))
  | flightPlanData (fp : FlightPlan)
  | controllersData (l : List ControllerPosition)
  | atisData (a : Atis)
  | malformed
deriving DecidableEq

/-- `serde_json::from_value::<AircraftDataMap>`. -/
def WsData.asAcftData : WsData → Option (List (String × AircraftInfo))
  | .acftData m => some m
  | _ => none

/-- `serde_json::from_value::<FlightPlan>`. -/
def WsData.asFlightPlan : WsData → Option FlightPlan
  | .flightPlanData fp => some fp
  | _ => none

/-- `serde_json::from_value::<Vec<ControllerPosition>>`. -/
def WsData.asControllers : WsData → Option (List ControllerPosition)
  | .controllersData l => some l
  | _ => none

/-- `serde_json::from_value::<Atis>`. -/
def WsData.asAtis : WsData → Option Atis
  | .atisData a => some a
  | _ => none

/-- `WsMessage` from src/types.rs after successful envelope parsing. -/
structure WsMessage where
  t : String
  d : WsData
  s : Option String
deriving DecidableEq

/-- `NetworkManager::handle_message` (src/network.rs) after the envelope has
been parsed: route on the type string.  `EVENT_ACFT_DATA` is applied only
when `enable_event_server` is set in the current configuration;
`FLIGHT_PLAN` and `EVENT_FLIGHT_PLAN` share one unconditional arm; an
unknown type is a logged no-op.  Errors are the `context` messages attached
to the failing payload parses. -/
def handleMessage (state : RadarState) (msg : WsMessage) (now : Int) :
    Except String RadarState :=
  if msg.t = "ACFT_DATA" then
    match msg.d.asAcftData with
    | some aircraft => .ok (state.update_aircraft_batch aircraft now)
    | none => .error "Failed to parse aircraft data"
  else if msg.t = "EVENT_ACFT_DATA" then
    if state.config.network.enable_event_server then
      match msg.d.asAcftData with
      | some aircraft => .ok (state.update_aircraft_batch aircraft now)
      | none => .error "Failed to parse event aircraft data"
    else
      .ok state
  else if msg.t = "FLIGHT_PLAN" ∨ msg.t = "EVENT_FLIGHT_PLAN" then
    match msg.d.asFlightPlan with
    | some flight_plan => .ok (state.update_flight_plan flight_plan)
    | none => .error "Failed to parse flight plan"
  else if msg.t = "CONTROLLERS" then
    match msg.d.asControllers with
    | some controllers => .ok (state.update_controllers controllers)
    | none => .error "Failed to parse controller positions"
  else if msg.t = "ATIS" then
    match msg.d.asAtis with
    | some atis => .ok (state.update_atis atis)
    | none => .error "Failed to parse ATIS"
  else
    .ok state

/-! ## Theorems -/

/-- C4: for every projection whose scale lies in the valid range [1, 1000]
and every world point, `screen_to_studs` inverts `studs_to_screen` exactly
(floating-point rounding being absent from the rational model). -/
theorem c4_projection_round_trip (p : Projection)
    (h1 : 1 ≤ p.studs_per_pixel) (h2 : p.studs_per_pixel ≤ 1000)
    (sx sy : ℚ) :
    p.screen_to_studs (p.studs_to_screen sx sy) = (sx, sy) := by
  have hne : p.studs_per_pixel ≠ 0 := by
    intro h
    rw [h] at h1
    norm_num at h1
  unfold Projection.screen_to_studs Projection.studs_to_screen
  simp only [Prod.mk.injEq]
  constructor <;> (field_simp; ring)

/-- Witness for C4 at a concrete projection and point. -/
theorem c4_projection_round_trip_witness :
    (Projection.new 800 600).screen_to_studs
      ((Projection.new 800 600).studs_to_screen 3 4) = (3, 4) :=
  c4_projection_round_trip (Projection.new 800 600)
    (by norm_num [Projection.new]) (by norm_num [Projection.new]) 3 4

/-- C5 counterexample: `pan` moves the center *opposite* to the claimed
direction — at center (0,0), scale 100 and pixel delta (1,0) the new center
x is -100, not center + delta * scale = 100. -/
theorem c5_counterexample :
    ((Projection.new 800 600).pan (1, 0)).center.1 = -100 ∧
    ((Projection.new 800 600).pan (1, 0)).center.1 ≠
      (Projection.new 800 600).center.1 +
        1 * (Projection.new 800 600).studs_per_pixel := by
  constructor <;> norm_num [Projection.new, Projection.pan]

/-- C5 amended: `pan(d)` shifts the center by *minus* `d * scale` in world
space (the view moves opposite to the drag), leaving the scale unchanged. -/
theorem c5_pan_amended (p : Projection) (d : ℚ × ℚ) :
    (p.pan d).center.1 = p.center.1 - d.1 * p.studs_per_pixel ∧
    (p.pan d).center.2 = p.center.2 - d.2 * p.studs_per_pixel ∧
    (p.pan d).studs_per_pixel = p.studs_per_pixel :=
  ⟨rfl, rfl, rfl⟩

/-- C3 counterexample: at scale 1 (inside the valid range) zooming in
multiplies the scale by 0.9, the anchor adjustment is computed with the
unclamped scale 0.9, and the final clamp back to 1 breaks the anchor
invariant: the anchor pixel (0,0) maps to world -50 before and -55 after. -/
theorem c3_counterexample :
    (1:ℚ) ≤ (Projection.mk (0, 0) 1 100 100).studs_per_pixel ∧
    (Projection.mk (0, 0) 1 100 100).studs_per_pixel ≤ 1000 ∧
    ((Projection.mk (0, 0) 1 100 100).zoom 1 (some (0, 0))).screen_to_studs
        (0, 0) = (-55, -55) ∧
    (Projection.mk (0, 0) 1 100 100).screen_to_studs (0, 0) = (-50, -50) := by
  refine ⟨by norm_num, by norm_num, ?_, by norm_num [Projection.screen_to_studs]⟩
  norm_num [Projection.zoom, Projection.screen_to_studs, clampQ]

/-- C3 amended: zooming with an anchor pixel preserves that pixel's world
coordinate whenever the rescaled value `studs_per_pixel * factor` already
lies inside the clamp range [1, 1000] (so the final clamp is the identity);
at the clamp boundary the anchor is not preserved (see the
counterexample). -/
theorem c3_zoom_anchor_amended (p : Projection) (delta : ℚ) (mouse : ℚ × ℚ)
    (h1 : 1 ≤ p.studs_per_pixel * (if delta > 0 then (0.9:ℚ) else 1.1))
    (h2 : p.studs_per_pixel * (if delta > 0 then (0.9:ℚ) else 1.1) ≤ 1000) :
    (p.zoom delta (some mouse)).screen_to_studs mouse =
      p.screen_to_studs mouse := by
  unfold Projection.zoom Projection.screen_to_studs clampQ
  simp only [Prod.mk.injEq]
  rw [if_neg (not_lt.mpr h1), if_neg (not_lt.mpr h2)]
  constructor <;> ring

/-- Witness for C3 (amended) at scale 100, where 100 * 0.9 = 90 stays inside
the clamp range. -/
theorem c3_zoom_anchor_amended_witness :
    ((Projection.new 800 600).zoom 1 (some (10, 20))).screen_to_studs
        (10, 20) =
      (Projection.new 800 600).screen_to_studs (10, 20) :=
  c3_zoom_anchor_amended (Projection.new 800 600) 1 (10, 20)
    (by norm_num [Projection.new]) (by norm_num [Projection.new])

/-- A concrete `AircraftInfo` builder used by concrete instances below. -/
def mkInfo (x y : ℚ) : AircraftInfo :=
  { heading := 0
    player_name := "pilot"
    altitude := 1000
    aircraft_type := "Airbus A380"
    position := ⟨x, y⟩
    speed := 120
    wind := "357/15"
    is_on_ground := some false
    ground_speed := 120
    is_emergency_occuring := false }

/-- One `update` keeps the history within the bound. -/
theorem update_history_length_le (t : TrackedAircraft) (info : AircraftInfo)
    (now : Int) (m : Nat) (h : t.history.length ≤ m) :
    (t.update info now m).history.length ≤ m := by
  unfold TrackedAircraft.update
  by_cases hs : t.should_add_history info
  · simp only [hs, if_true]
    by_cases hl : t.history.length + 1 > m
    · simp [List.length_append, hl]
      omega
    · simp [List.length_append, hl]
      omega
  · simpa [hs] using h

/-- The history bound is preserved along any sequence of updates. -/
theorem foldl_history_length_le (m : Nat) (samples : List (AircraftInfo × Int))
    (t : TrackedAircraft) (h : t.history.length ≤ m) :
    (samples.foldl (fun a p => a.update p.1 p.2 m) t).history.length ≤ m := by
  induction samples generalizing t with
  | nil => exact h
  | cons s rest ih =>
    exact ih _ (update_history_length_le _ _ _ _ h)

/-- C2: starting from a fresh `TrackedAircraft`, after any sequence of
updates with bound `max_history` the history length is at most
`max_history`; a point is appended exactly when the squared planar distance
between the new sample and the stored position exceeds 100², and when the
bound is full the oldest (front) point is dropped first. -/
theorem c2_history_invariant (max_history : Nat) :
    (∀ (cs : String) (info0 : AircraftInfo) (t0 : Int)
        (samples : List (AircraftInfo × Int)),
      (samples.foldl (fun a p => a.update p.1 p.2 max_history)
          (TrackedAircraft.new cs info0 t0)).history.length ≤ max_history)
    ∧ (∀ (t : TrackedAircraft) (info : AircraftInfo),
        t.should_add_history info = true ↔
          (info.position.x - t.info.position.x) *
              (info.position.x - t.info.position.x) +
            (info.position.y - t.info.position.y) *
              (info.position.y - t.info.position.y) > 100 * 100)
    ∧ (∀ (t : TrackedAircraft) (info : AircraftInfo) (now : Int),
        t.should_add_history info = false →
          (t.update info now max_history).history = t.history)
    ∧ (∀ (t : TrackedAircraft) (info : AircraftInfo) (now : Int),
        t.should_add_history info = true →
          t.history.length < max_history →
          (t.update info now max_history).history =
            t.history ++ [(t.info.position.x, t.info.position.y, t.last_update)])
    ∧ (∀ (t : TrackedAircraft) (info : AircraftInfo) (now : Int),
        t.should_add_history info = true →
          max_history ≤ t.history.length →
          (t.update info now max_history).history =
            (t.history ++
              [(t.info.position.x, t.info.position.y, t.last_update)]).drop 1) := by
  refine ⟨?_, ?_, ?_, ?_, ?_⟩
  · intro cs info0 t0 samples
    exact foldl_history_length_le max_history samples _ (by simp [TrackedAircraft.new])
  · intro t info
    unfold TrackedAircraft.should_add_history
    simp
  · intro t info now hs
    simp [TrackedAircraft.update, hs]
  · intro t info now hs hl
    have : ¬ (t.history ++
        [(t.info.position.x, t.info.position.y, t.last_update)]).length > max_history := by
      simp [List.length_append]
      omega
    simp [TrackedAircraft.update, hs, this]
    intro h
    exfalso
    omega
  · intro t info now hs hl
    have : (t.history ++
        [(t.info.position.x, t.info.position.y, t.last_update)]).length > max_history := by
      simp [List.length_append]
      omega
    simp [TrackedAircraft.update, hs, this]
    intro h
    exfalso
    omega

/-- Witness for C2: the spec's scenario — from (0,0) one sample at (0,150)
(distance 150 > 100) leaves exactly the single history point (0,0). -/
theorem c2_history_invariant_witness :
    ((TrackedAircraft.new "ABC123" (mkInfo 0 0) 0).update (mkInfo 0 150) 5
        20).history = [(0, 0, 0)] ∧
    ([(mkInfo 0 150, (5:Int))].foldl (fun a p => a.update p.1 p.2 20)
        (TrackedAircraft.new "ABC123" (mkInfo 0 0) 0)).history.length ≤ 20 := by
  constructor
  · have hs : (TrackedAircraft.new "ABC123" (mkInfo 0 0) 0).should_add_history
        (mkInfo 0 150) = true := by
      rw [(c2_history_invariant 20).2.1]
      norm_num [mkInfo, TrackedAircraft.new]
    have h := (c2_history_invariant 20).2.2.2.1 _ (mkInfo 0 150) 5 hs
      (by norm_num [TrackedAircraft.new])
    rw [h]
    simp [TrackedAircraft.new, mkInfo]
  · exact (c2_history_invariant 20).1 "ABC123" (mkInfo 0 0) 0 [(mkInfo 0 150, 5)]

/-- When the callsign is absent, the flight-plan assignment loop leaves the
aircraft list untouched. -/
theorem setFlightPlan_of_absent (l : List (String × TrackedAircraft))
    (fp : FlightPlan) (h : lookupA l fp.callsign = none) :
    setFlightPlan l fp = l := by
  induction l with
  | nil => rfl
  | cons p rest ih =>
    obtain ⟨k, t⟩ := p
    unfold lookupA at h
    unfold setFlightPlan
    by_cases hk : k = fp.callsign
    · simp [hk] at h
    · simp only [hk, if_false, if_neg hk] at h ⊢
      rw [ih h]

/-- C6: a flight plan whose callsign matches no tracked aircraft leaves the
whole store unchanged — nothing is created, nothing is buffered, and
`update_flight_plan` (a total function) reports no error. -/
theorem c6_flight_plan_dropped (s : RadarState) (fp : FlightPlan)
    (h : lookupA s.aircraft fp.callsign = none) :
    s.update_flight_plan fp = s := by
  unfold RadarState.update_flight_plan
  rw [setFlightPlan_of_absent _ _ h]

/-- A concrete flight plan for callsign "XYZ1". -/
def fpXYZ : FlightPlan :=
  { roblox_name := "somePilot"
    callsign := "XYZ1"
    real_callsign := "XYZ1"
    aircraft := "A320"
    flight_rules := "IFR"
    departing := "IRFD"
    arriving := "IZOL"
    route := "DCT"
    flight_level := "FL100" }

/-- Witness for C6: a plan for "XYZ1" arriving into an empty store is
discarded. -/
theorem c6_flight_plan_dropped_witness :
    RadarState.new.update_flight_plan fpXYZ = RadarState.new :=
  c6_flight_plan_dropped RadarState.new fpXYZ rfl

/-- An upsert for one callsign does not change the lookup of any other
callsign. -/
theorem lookupA_upsert_ne (l : List (String × TrackedAircraft)) (k : String)
    (info : AircraftInfo) (now : Int) (mh : Nat) (key : String) (h : key ≠ k) :
    lookupA (upsertAircraft l k info now mh) key = lookupA l key := by
  induction l with
  | nil => simp [upsertAircraft, lookupA, Ne.symm h]
  | cons p rest ih =>
    obtain ⟨k', t⟩ := p
    unfold upsertAircraft
    by_cases hk : k' = k
    · subst hk
      simp only [if_true]
      unfold lookupA
      have : ¬ k' = key := fun hh => h (hh.symm)
      simp [this]
    · simp only [hk, if_false, if_neg hk]
      unfold lookupA
      by_cases hkey : k' = key
      · simp [hkey]
      · simp only [hkey, if_false, if_neg hkey]
        exact ih

/-- An upsert never removes an entry. -/
theorem lookupA_upsert_isSome (l : List (String × TrackedAircraft)) (k : String)
    (info : AircraftInfo) (now : Int) (mh : Nat) (key : String)
    (h : (lookupA l key).isSome) :
    (lookupA (upsertAircraft l k info now mh) key).isSome := by
  induction l with
  | nil => simp [lookupA] at h
  | cons p rest ih =>
    obtain ⟨k', t⟩ := p
    unfold upsertAircraft
    by_cases hk : k' = k
    · subst hk
      simp only [if_true]
      unfold lookupA at h ⊢
      by_cases hkey : k' = key
      · simp [hkey]
      · simp only [hkey, if_false, if_neg hkey] at h ⊢
        exact h
    · simp only [hk, if_false, if_neg hk]
      unfold lookupA at h ⊢
      by_cases hkey : k' = key
      · simp [hkey]
      · simp only [hkey, if_false, if_neg hkey] at h ⊢
        exact ih h

/-- The batch fold does not touch callsigns outside the batch. -/
theorem lookupA_foldl_upsert_not_mem (batch : List (String × AircraftInfo))
    (l : List (String × TrackedAircraft)) (now : Int) (mh : Nat) (key : String)
    (h : key ∉ batch.map Prod.fst) :
    lookupA (batch.foldl (fun acc p => upsertAircraft acc p.1 p.2 now mh) l)
        key = lookupA l key := by
  induction batch generalizing l with
  | nil => rfl
  | cons p rest ih =>
    simp only [List.map_cons, List.mem_cons, not_or] at h
    obtain ⟨h1, h2⟩ := h
    simp only [List.foldl_cons]
    rw [ih _ h2, lookupA_upsert_ne _ _ _ _ _ _ h1]

/-- The batch fold never removes an entry. -/
theorem lookupA_foldl_upsert_isSome (batch : List (String × AircraftInfo))
    (l : List (String × TrackedAircraft)) (now : Int) (mh : Nat) (key : String)
    (h : (lookupA l key).isSome) :
    (lookupA (batch.foldl (fun acc p => upsertAircraft acc p.1 p.2 now mh) l)
        key).isSome := by
  induction batch generalizing l with
  | nil => exact h
  | cons p rest ih =>
    simp only [List.foldl_cons]
    exact ih _ (lookupA_upsert_isSome _ _ _ _ _ _ h)

/-- The flight-plan assignment changes no key's presence. -/
theorem lookupA_setFlightPlan_isSome (l : List (String × TrackedAircraft))
    (fp : FlightPlan) (key : String) :
    (lookupA (setFlightPlan l fp) key).isSome = (lookupA l key).isSome := by
  induction l with
  | nil => rfl
  | cons p rest ih =>
    obtain ⟨k, t⟩ := p
    by_cases hk : k = fp.callsign
    · subst hk
      by_cases hkey : fp.callsign = key
      · simp [setFlightPlan, lookupA, hkey]
      · simp [setFlightPlan, lookupA, hkey]
    · by_cases hkey : k = key
      · subst hkey
        simp [setFlightPlan, lookupA, hk]
      · simp [setFlightPlan, lookupA, hk, hkey, ih]

/-- C9: `update_aircraft_batch` leaves every tracked aircraft whose callsign
is not in the batch entirely unchanged and removes no aircraft; the other
store writers (`update_flight_plan`, `update_controllers`, `update_atis`)
remove none either, so eviction happens only in `clear_stale_aircraft`. -/
theorem c9_batch_frame (s : RadarState) (batch : List (String × AircraftInfo))
    (now : Int) :
    (∀ key, key ∉ batch.map Prod.fst →
      lookupA (s.update_aircraft_batch batch now).aircraft key =
        lookupA s.aircraft key)
    ∧ (∀ key, (lookupA s.aircraft key).isSome →
        (lookupA (s.update_aircraft_batch batch now).aircraft key).isSome)
    ∧ (∀ fp key, (lookupA (s.update_flight_plan fp).aircraft key).isSome =
        (lookupA s.aircraft key).isSome)
    ∧ (∀ positions, (s.update_controllers positions).aircraft = s.aircraft)
    ∧ (∀ atis, (s.update_atis atis).aircraft = s.aircraft) := by
  refine ⟨?_, ?_, ?_, fun _ => rfl, fun _ => rfl⟩
  · intro key hkey
    exact lookupA_foldl_upsert_not_mem batch s.aircraft now
      s.config.display.history_length key hkey
  · intro key hkey
    exact lookupA_foldl_upsert_isSome batch s.aircraft now
      s.config.display.history_length key hkey
  · intro fp key
    exact lookupA_setFlightPlan_isSome s.aircraft fp key

/-- A store holding one aircraft "AAA". -/
def s9 : RadarState :=
  { RadarState.new with
    aircraft := [("AAA", TrackedAircraft.new "AAA" (mkInfo 0 0) 0)] }

/-- Witness for C9: a batch for "BBB" does not touch "AAA". -/
theorem c9_batch_frame_witness :
    lookupA (s9.update_aircraft_batch [("BBB", mkInfo 1 1)] 5).aircraft "AAA" =
      lookupA s9.aircraft "AAA" :=
  (c9_batch_frame s9 [("BBB", mkInfo 1 1)] 5).1 "AAA" (by decide)

deriving instance DecidableEq for Except

/-- A store tracking "XYZ1" (no flight plan yet) under the default
configuration, whose event source is disabled. -/
def sC1 : RadarState :=
  { RadarState.new with
    aircraft := [("XYZ1", TrackedAircraft.new "XYZ1" (mkInfo 0 0) 0)] }

/-- C1 counterexample: with `enable_event_server = false`, an
`EVENT_FLIGHT_PLAN` message is *not* discarded — the `FLIGHT_PLAN |
EVENT_FLIGHT_PLAN` arm of `handle_message` never consults the flag, so the
matching aircraft's flight plan is mutated. -/
theorem c1_counterexample :
    sC1.config.network.enable_event_server = false ∧
    handleMessage sC1 ⟨"EVENT_FLIGHT_PLAN", .flightPlanData fpXYZ, none⟩ 5 ≠
      .ok sC1 := by
  constructor
  · rfl
  · decide

/-- C1 amended: the event-source gate applies only to `EVENT_ACFT_DATA`
payloads — those are fully ignored (no state change, success) when
`enable_event_server` is false — while `EVENT_FLIGHT_PLAN` is routed
exactly like `FLIGHT_PLAN`, regardless of the flag. -/
theorem c1_event_gate_amended (s : RadarState) (msg : WsMessage) (now : Int) :
    (msg.t = "EVENT_ACFT_DATA" → s.config.network.enable_event_server = false →
      handleMessage s msg now = .ok s)
    ∧ (msg.t = "EVENT_FLIGHT_PLAN" →
      handleMessage s msg now = handleMessage s ⟨"FLIGHT_PLAN", msg.d, msg.s⟩ now) := by
  constructor
  · intro ht he
    simp [handleMessage, ht, he]
  · intro ht
    simp [handleMessage, ht]

/-- Witness for C1 (amended): a concrete `EVENT_ACFT_DATA` batch is ignored
by the default (event-disabled) configuration. -/
theorem c1_event_gate_amended_witness :
    handleMessage sC1 ⟨"EVENT_ACFT_DATA", .acftData [("BBB", mkInfo 1 1)], none⟩
        5 = .ok sC1 :=
  (c1_event_gate_amended sC1
    ⟨"EVENT_ACFT_DATA", .acftData [("BBB", mkInfo 1 1)], none⟩ 5).1 rfl rfl

/-- C7: for an emergency aircraft the target colour is the configured
emergency colour exactly on the even 500 ms windows of the animation clock
(`i64` truncated division, matching the claim for the clock's nonnegative
values) and fully transparent on the odd ones, regardless of selection or
on-ground state; the flash has period 1000 ms. -/
theorem c7_emergency_flash (sel : Option String) (t : TrackedAircraft)
    (colors : ColorConfig) (time_millis : Int)
    (he : t.info.is_emergency_occuring = true) :
    (targetColor sel t colors time_millis =
      if (time_millis.tdiv 500).tmod 2 = 0 then
        parse_color colors.target_emergency
      else some Color32.TRANSPARENT)
    ∧ (0 ≤ time_millis →
        targetColor sel t colors (time_millis + 1000) =
          targetColor sel t colors time_millis)
    ∧ (0 ≤ time_millis →
        ((time_millis.tdiv 500).tmod 2 = 0 ↔ time_millis.tmod 1000 < 500)) := by
  refine ⟨?_, ?_, ?_⟩
  · unfold targetColor
    rw [he]
    simp
  · intro ht
    have hiff : (((time_millis + 1000).tdiv 500).tmod 2 = 0) ↔
        ((time_millis.tdiv 500).tmod 2 = 0) := by
      rw [Int.tdiv_eq_ediv (by omega) (by norm_num),
        Int.tdiv_eq_ediv ht (by norm_num),
        Int.tmod_eq_emod (Int.ediv_nonneg (by omega) (by norm_num)) (by norm_num),
        Int.tmod_eq_emod (Int.ediv_nonneg ht (by norm_num)) (by norm_num)]
      omega
    unfold targetColor
    rw [he]
    simp only [if_true]
    by_cases hc : (time_millis.tdiv 500).tmod 2 = 0
    · rw [if_pos hc, if_pos (hiff.mpr hc)]
    · rw [if_neg hc, if_neg (fun hh => hc (hiff.mp hh))]
  · intro ht
    rw [Int.tdiv_eq_ediv ht (by norm_num),
      Int.tmod_eq_emod (Int.ediv_nonneg ht (by norm_num)) (by norm_num),
      Int.tmod_eq_emod ht (by norm_num)]
    omega

/-- An emergency aircraft. -/
def trEmergency : TrackedAircraft :=
  TrackedAircraft.new "MAYDAY1" { mkInfo 0 0 with is_emergency_occuring := true } 0

/-- Witness for C7: at clock 0 (an even window) the emergency aircraft is
drawn in the default emergency colour #FF0000. -/
theorem c7_emergency_flash_witness :
    targetColor none trEmergency ColorConfig.default 0 =
      some (Color32.from_rgb 255 0 0) := by
  have h := (c7_emergency_flash none trEmergency ColorConfig.default 0 rfl).1
  rw [h]
  decide

/-- C8: the predictive-vector endpoint is the current position displaced by
`gs * 0.5442765 * (vector_minutes * 60)` studs along the planar angle
`(heading - 90)°` in radians; for heading 0, ground speed 120 kt and the
default 3-minute look-ahead it lies due North (negative y) at distance
`120 * 0.5442765 * 180`. -/
theorem c8_predictive_vector :
    (∀ (t : TrackedAircraft) (display : DisplayConfig),
      render_vector_endpoint t display =
        ((t.info.position.x : ℝ) +
            (t.info.ground_speed : ℝ) * 0.5442765 *
              ((display.vector_minutes : ℝ) * 60) *
              Real.cos (((t.info.heading : ℝ) - 90) * Real.pi / 180),
          (t.info.position.y : ℝ) +
            (t.info.ground_speed : ℝ) * 0.5442765 *
              ((display.vector_minutes : ℝ) * 60) *
              Real.sin (((t.info.heading : ℝ) - 90) * Real.pi / 180)))
    ∧ (∀ (x y : ℚ),
        render_vector_endpoint
            (TrackedAircraft.new "ABC123" (mkInfo x y) 0) DisplayConfig.default =
          ((x : ℝ), (y : ℝ) - 120 * 0.5442765 * 180)) := by
  constructor
  · intro t display
    rfl
  · intro x y
    unfold render_vector_endpoint
    simp only [TrackedAircraft.new, mkInfo, DisplayConfig.default]
    have hang : (((0:ℚ) : ℝ) - 90) * Real.pi / 180 = -(Real.pi / 2) := by
      push_cast
      ring
    rw [hang, Real.cos_neg, Real.sin_neg, Real.cos_pi_div_two, Real.sin_pi_div_two]
    simp only [Prod.mk.injEq]
    constructor
    · push_cast
      ring
    · push_cast
      ring_nf

/-- C10 counterexample: `parse_color` is not total — on the 6-byte input
"aé123" the byte slice `[0..2]` ends inside the two-byte character 'é', so
the Rust function panics (modelled as `none`). -/
theorem c10_counterexample :
    strByteLen (['a', 'é', '1', '2', '3'].dropWhile (fun c => c = '#')) = 6 ∧
    parseColorChars ['a', 'é', '1', '2', '3'] = none := by
  constructor <;> decide

/-- C10 amended: after stripping every leading '#', an input whose remainder
is not 6 UTF-8 bytes long yields white; a 6-byte remainder whose byte
slices [0..2], [2..4], [4..6] all fall on character boundaries (any ASCII
input) yields the RGB colour with each unparsable component replaced by 0;
a 6-byte remainder with a slice off a character boundary makes
`parse_color` panic instead of returning. -/
theorem c10_parse_color_amended (s : List Char) :
    (strByteLen (s.dropWhile (fun c => c = '#')) ≠ 6 →
      parseColorChars s = some Color32.WHITE)
    ∧ (∀ rs gs bs,
        strByteLen (s.dropWhile (fun c => c = '#')) = 6 →
        sliceBytes (s.dropWhile (fun c => c = '#')) 0 2 = some rs →
        sliceBytes (s.dropWhile (fun c => c = '#')) 2 4 = some gs →
        sliceBytes (s.dropWhile (fun c => c = '#')) 4 6 = some bs →
        parseColorChars s = some (Color32.from_rgb
          ((fromStrRadix16u8 rs).getD 0) ((fromStrRadix16u8 gs).getD 0)
          ((fromStrRadix16u8 bs).getD 0)))
    ∧ (strByteLen (s.dropWhile (fun c => c = '#')) = 6 →
        (sliceBytes (s.dropWhile (fun c => c = '#')) 0 2 = none ∨
          sliceBytes (s.dropWhile (fun c => c = '#')) 2 4 = none ∨
          sliceBytes (s.dropWhile (fun c => c = '#')) 4 6 = none) →
        parseColorChars s = none) := by
  refine ⟨?_, ?_, ?_⟩
  · intro h
    simp [parseColorChars, h]
  · intro rs gs bs hlen h1 h2 h3
    simp [parseColorChars, hlen, h1, h2, h3]
  · intro hlen hd
    rcases hd with h1 | h2 | h3
    · simp [parseColorChars, hlen, h1]
    · cases hc1 : sliceBytes (s.dropWhile (fun c => c = '#')) 0 2 with
      | none => simp [parseColorChars, hlen, hc1]
      | some rs => simp [parseColorChars, hlen, hc1, h2]
    · cases hc1 : sliceBytes (s.dropWhile (fun c => c = '#')) 0 2 with
      | none => simp [parseColorChars, hlen, hc1]
      | some rs =>
        cases hc2 : sliceBytes (s.dropWhile (fun c => c = '#')) 2 4 with
        | none => simp [parseColorChars, hlen, hc1, hc2]
        | some gs => simp [parseColorChars, hlen, hc1, hc2, h3]

/-- Witness for C10 (amended): "00FF00" parses to pure green and "red" (not
six bytes) falls back to white. -/
theorem c10_parse_color_amended_witness :
    parseColorChars "00FF00".data = some (Color32.from_rgb 0 255 0) ∧
    parseColorChars "red".data = some Color32.WHITE := by
  constructor
  · have h := (c10_parse_color_amended "00FF00".data).2.1
      ['0', '0'] ['F', 'F'] ['0', '0'] (by decide) (by decide) (by decide)
      (by decide)
    rw [h]
    decide
  · exact (c10_parse_color_amended "red".data).1 (by decide)

end Feritscope
